import Mathlib

/-!
Verification of the sudosh Ansible become plugin
(`ansible_plugins/become/sudosh.py`).

The development shallowly embeds the two components of the plugin:

* the command builder `BecomeModule.build_become_command`, and
* the response classifier (`check_password_prompt` / `check_success`,
  together with the structured-JSON classifier exercised by the companion
  test suite).

Machine strings are modelled as Lean `String` (lists of characters); the
Python `or` fallback on option values is modelled by treating the empty
string as a missing value (Python string `or` falls through exactly on
`None` and `""`).  Fallible code (the `shlex.split` tokenizer, whose
failure `build_become_command` does not catch) is modelled with `Option`:
`none` is the propagated exception.  All definitions are executable
structural recursions so that concrete runs evaluate by `decide`.
-/

/-! ### Character and string helpers (Python primitive semantics) -/

/-- The single-quote character (written via its code point). -/
def quoteCh : Char := Char.ofNat 39

/-- Opening curly brace character. -/
def lbraceCh : Char := Char.ofNat 123

/-- Closing curly brace character. -/
def rbraceCh : Char := Char.ofNat 125

/-- Whitespace recognised by `shlex` (`shlex.whitespace = " \t\r\n"`),
which coincides with JSON's interelement whitespace. -/
def pyShWs (c : Char) : Bool :=
  c == ' ' || c == '\t' || c == '\r' || c == '\n'

/-- Whitespace stripped by Python `str.strip()` / `bytes.strip()`
(`" \t\n\r\x0b\x0c"`). -/
def pyStripWsCh (c : Char) : Bool :=
  c == ' ' || c == '\t' || c == '\n' || c == '\r' || c == '\x0b' || c == '\x0c'

/-- Boolean test that the first list is an initial segment of the second. -/
def leads : List Char → List Char → Bool
  | [], _ => true
  | _ :: _, [] => false
  | p :: ps, c :: cs => p == c && leads ps cs

/-- Substring containment on character lists (Python `in` on `str`/`bytes`). -/
def containsSub (pat : List Char) : List Char → Bool
  | [] => leads pat []
  | c :: rest => leads pat (c :: rest) || containsSub pat rest

/-- Substring containment on strings. -/
def containsS (pat s : String) : Bool := containsSub pat.data s.data

/-- Membership of a character in a character list. -/
def hasCh : List Char → Char → Bool
  | [], _ => false
  | c :: rest, a => c == a || hasCh rest a

/-- Fuelled worker for `replaceAll`: removes every non-overlapping
occurrence of `pat`, scanning left to right exactly as Python
`str.replace(pat, "")` does on the original string. -/
def replaceAllAux (pat : List Char) : Nat → List Char → List Char
  | 0, l => l
  | _ + 1, [] => []
  | fuel + 1, c :: rest =>
    if leads pat (c :: rest) then replaceAllAux pat fuel (List.drop pat.length (c :: rest))
    else c :: replaceAllAux pat fuel rest

/-- Python `s.replace(pat, "")`. -/
def replaceAll (s pat : String) : String :=
  ⟨replaceAllAux pat.data (s.data.length + 1) s.data⟩

/-- Python `str.strip()` (both ends, default whitespace set). -/
def pyStrip (s : String) : String :=
  ⟨((s.data.dropWhile pyStripWsCh).reverse.dropWhile pyStripWsCh).reverse⟩

/-- Space-join of a list of strings (`" ".join(...)`), on character lists. -/
def jn : List String → List Char
  | [] => []
  | [s] => s.data
  | s :: t :: rest => s.data ++ (' ' :: jn (t :: rest))

/-- Space-join of a list of strings, as a string. -/
def jnS (l : List String) : String := ⟨jn l⟩

/-- Python `s.startswith(pre)`. -/
def startsWith2 (s pre : String) : Bool := leads pre.data s.data

/-! ### The `shlex.split` tokenizer

`build_become_command` tokenizes the flags string with `shlex.split`
(POSIX mode, `whitespace_split=True`, comments disabled).  The state
machine below is the character-by-character transcription of
`shlex.read_token` for that configuration: single quotes are literal
runs, double quotes honour backslash escapes of `"` and `\`, a backslash
outside quotes escapes the next character, and an unterminated quote or
trailing escape raises `ValueError` (modelled by `none`). -/

/-- Lexer states of `shlex.read_token`: between tokens (`' '`), inside a
word (`'a'`), inside single/double quotes, and the two escape states
(backslash seen outside quotes / inside double quotes). -/
inductive ShState : Type where
  | ws
  | word
  | sq
  | dq
  | escWord
  | escDq
deriving DecidableEq

/-- One-pass transcription of `shlex.read_token` iterated to the end of
input: `tok` is the token being accumulated, `quoted` records whether the
current token saw a quote (so that `''` yields an empty token), `acc` the
tokens already emitted (reversed). -/
def shlexAux : List Char → ShState → List Char → Bool → List (List Char) →
    Option (List (List Char))
  | [], .ws, _, _, acc => some acc.reverse
  | [], .word, tok, quoted, acc =>
    if tok.isEmpty && !quoted then some acc.reverse else some ((tok :: acc).reverse)
  | [], .sq, _, _, _ => none
  | [], .dq, _, _, _ => none
  | [], .escWord, _, _, _ => none
  | [], .escDq, _, _, _ => none
  | c :: rest, .ws, tok, quoted, acc =>
    if pyShWs c then shlexAux rest .ws tok quoted acc
    else if c == '\\' then shlexAux rest .escWord tok quoted acc
    else if c == quoteCh then shlexAux rest .sq tok true acc
    else if c == '"' then shlexAux rest .dq tok true acc
    else shlexAux rest .word (tok ++ [c]) quoted acc
  | c :: rest, .word, tok, quoted, acc =>
    if pyShWs c then
      shlexAux rest .ws [] false (if tok.isEmpty && !quoted then acc else tok :: acc)
    else if c == '\\' then shlexAux rest .escWord tok quoted acc
    else if c == quoteCh then shlexAux rest .sq tok true acc
    else if c == '"' then shlexAux rest .dq tok true acc
    else shlexAux rest .word (tok ++ [c]) quoted acc
  | c :: rest, .sq, tok, quoted, acc =>
    if c == quoteCh then shlexAux rest .word tok quoted acc
    else shlexAux rest .sq (tok ++ [c]) quoted acc
  | c :: rest, .dq, tok, quoted, acc =>
    if c == '"' then shlexAux rest .word tok quoted acc
    else if c == '\\' then shlexAux rest .escDq tok quoted acc
    else shlexAux rest .dq (tok ++ [c]) quoted acc
  | c :: rest, .escWord, tok, quoted, acc =>
    shlexAux rest .word (tok ++ [c]) quoted acc
  | c :: rest, .escDq, tok, quoted, acc =>
    if c == '\\' || c == '"' then shlexAux rest .dq (tok ++ [c]) quoted acc
    else shlexAux rest .dq (tok ++ ['\\', c]) quoted acc

/-- Python `shlex.split(s)`; `none` models the raised `ValueError` on
unbalanced quoting or a trailing escape. -/
def shlexSplit (s : String) : Option (List String) :=
  (shlexAux s.data .ws [] false []).map (fun ts => ts.map (fun t => (⟨t⟩ : String)))

/-! ### Data model: resolved configuration and ambient environment -/

/-- The resolved option mapping consumed by the builder.  String options
use `""` for a missing value (Python's falsy fallback in
`self.get_option(...) or default` treats `None` and `""` identically). -/
structure BecomeConfig : Type where
  become_exe : String
  become_user : String
  become_flags : String
  become_pass : String
  sudosh_session_log : Bool
  sudosh_detection_force : Bool
  sudosh_detection_verbose : Bool
deriving DecidableEq

/-- The ambient environment snapshot: the five `os.environ` keys the
builder consults.  `none` is an absent variable; `some s` a present one
(possibly empty, which Python's truthiness test also skips). -/
structure AmbientEnv : Type where
  module_name : Option String
  task_uuid : Option String
  playbook_dir : Option String
  inventory : Option String
  config : Option String
deriving DecidableEq

/-- Python string `x or d`. -/
def pyOr (s d : String) : String := if s = "" then d else s

/-- Python truthiness of `os.environ.get(k)`. -/
def optTruthy : Option String → Bool
  | none => false
  | some s => !(s == "")

/-- The value of a present environment variable (`""` when absent; only
used behind `optTruthy`). -/
def optVal : Option String → String
  | none => ""
  | some s => s

/-- Python `os.environ.get(k, d)`. -/
def getOr (o : Option String) (d : String) : String :=
  match o with
  | none => d
  | some s => s

/-- Default flag string (`become_flags` documented default, also the
inline fallback in `build_become_command`). -/
def defaultBecomeFlags : String := "--ansible-detect --ansible-verbose"

/-- The verbose detection flag token. -/
def verboseFlagTok : String := "--ansible-verbose"

/-- The forced detection flag token. -/
def forceFlagTok : String := "--ansible-force"

/-! ### The command builder (`build_become_command`) -/

/-- The `ansible_env_vars` list: four unconditional annotations followed
by the three annotations emitted only when the ambient variable is
truthy (lines 224-240 of the plugin). -/
def ansibleEnvVars (cfg : BecomeConfig) (env : AmbientEnv) : List String :=
  ["ANSIBLE_BECOME_METHOD=sudosh",
   "ANSIBLE_BECOME_USER=" ++ pyOr cfg.become_user ("root"),
   "ANSIBLE_MODULE_NAME=" ++ getOr env.module_name ("unknown"),
   "ANSIBLE_TASK_UUID=" ++ getOr env.task_uuid ("unknown")]
  ++ (if optTruthy env.playbook_dir then ["ANSIBLE_PLAYBOOK_DIR=" ++ optVal env.playbook_dir] else [])
  ++ (if optTruthy env.inventory then ["ANSIBLE_INVENTORY=" ++ optVal env.inventory] else [])
  ++ (if optTruthy env.config then ["ANSIBLE_CONFIG=" ++ optVal env.config] else [])

/-- The flags string actually passed to the tokenizer: the configured
flags (or the default), with every plain occurrence of
`--ansible-verbose` removed and the result stripped when verbose
detection is explicitly disabled (line 252). -/
def effectiveFlags (cfg : BecomeConfig) : String :=
  let flags := pyOr cfg.become_flags defaultBecomeFlags
  if cfg.sudosh_detection_verbose then flags
  else pyStrip (replaceAll flags verboseFlagTok)

/-- The `sudosh_flags` extras derived from the boolean options
(lines 242-255), in the order the code appends them. -/
def sudoshFlags (cfg : BecomeConfig) : List String :=
  (if cfg.sudosh_detection_force then [forceFlagTok] else [])
  ++ (if cfg.sudosh_detection_verbose then [verboseFlagTok] else [])
  ++ (if cfg.sudosh_session_log then [] else ["--no-session-log"])

/-- Tokenization step: `shlex.split` is invoked only on a non-empty
flags string (line 259-260). -/
def flagTokens (cfg : BecomeConfig) : Option (List String) :=
  if effectiveFlags cfg = "" then some [] else shlexSplit (effectiveFlags cfg)

/-- `all_flags` before password handling: tokenized flags followed by the
sudosh extras (lines 258-261). -/
def allFlags (cfg : BecomeConfig) : Option (List String) :=
  (flagTokens cfg).map (fun ts => ts ++ sudoshFlags cfg)

/-- Python regex `\w` restricted to ASCII (letters, digits, underscore),
which covers every flag token the plugin handles. -/
def isWordChar (c : Char) : Bool :=
  decide ((97 ≤ c.toNat ∧ c.toNat ≤ 122) ∨ (65 ≤ c.toNat ∧ c.toNat ≤ 90) ∨
    (48 ≤ c.toNat ∧ c.toNat ≤ 57) ∨ c = ('_'))

/-- Remove the first `n` of a character list (helper for the regex
semantics below). -/
def removeFirstN : List Char → List Char
  | [] => []
  | c :: rest => if c = ('n') then rest else c :: removeFirstN rest

/-- Remove the last `n` of a character list. -/
def removeLastN (l : List Char) : List Char := (removeFirstN l.reverse).reverse

/-- Semantics of `re.sub(r'^(-\w*)n(\w*.*)', r'\1\2', flag)` (line 275):
if the token starts with `-` and the maximal run of word characters
after the dash contains an `n`, greedy matching deletes the last such
`n`; otherwise the token is unchanged. -/
def subN (t : String) : String :=
  match t.data with
  | [] => t
  | c :: rest =>
    if c = ('-') then
      let run := rest.takeWhile isWordChar
      let tl := rest.dropWhile isWordChar
      if hasCh run ('n') then ⟨('-') :: (removeLastN run ++ tl)⟩ else t
    else t

/-- One iteration of the password-driven flag rewriting loop
(lines 268-277): standalone non-interactive flags are dropped, long
flags pass through, and short-flag tokens go through the regex. -/
def stripStep (flag : String) : Option String :=
  if flag = "-n" ∨ flag = "--non-interactive" then none
  else if startsWith2 flag ("--") then some flag
  else some (subN flag)

/-- The whole `reflag` rewriting pass. -/
def stripNonInteractive (l : List String) : List String := l.filterMap stripStep

/-- `all_flags` after password handling: the rewriting pass runs exactly
when a password is configured (line 265). -/
def finalFlags (cfg : BecomeConfig) : Option (List String) :=
  (allFlags cfg).map (fun l => if cfg.become_pass = "" then l else stripNonInteractive l)

/-- The user-selection segment `-u <user>` (lines 280-284), empty when no
user is configured. -/
def userFlag (cfg : BecomeConfig) : String :=
  if cfg.become_user = "" then "" else "-u " ++ cfg.become_user

/-- The environment-prefix segment of `cmd_parts` (lines 292-294). -/
def envSeg (cfg : BecomeConfig) (env : AmbientEnv) : List String :=
  let evs := ansibleEnvVars cfg env
  if jnS evs = "" then [] else "env" :: evs

/-- The flags segment of `cmd_parts` (lines 296-297): the space-joined
flag tokens as one part, omitted when the join is empty. -/
def flagSeg (fl : List String) : List String :=
  if jnS fl = "" then [] else [jnS fl]

/-- The user segment of `cmd_parts` (lines 298-299). -/
def userSeg (cfg : BecomeConfig) : List String :=
  if userFlag cfg = "" then [] else [userFlag cfg]

/-- The `cmd_parts` list built at lines 291-300.  `wrap` stands for the
externally owned `self._build_success_command`, treated as an opaque
wrapping of the target command. -/
def buildParts (cmd shell : String) (cfg : BecomeConfig) (env : AmbientEnv)
    (wrap : String → String → String) : Option (List String) :=
  (finalFlags cfg).map (fun fl =>
    envSeg cfg env ++ [pyOr cfg.become_exe ("sudosh")] ++ flagSeg fl ++ userSeg cfg
      ++ [wrap cmd shell])

/-- `build_become_command`: the empty command is returned unchanged
(lines 215-216); otherwise the joined `cmd_parts` string.  `none` models
the uncaught `ValueError` of the tokenizer. -/
def buildBecomeCommand (cmd shell : String) (cfg : BecomeConfig) (env : AmbientEnv)
    (wrap : String → String → String) : Option String :=
  if cmd = "" then some cmd
  else (buildParts cmd shell cfg env wrap).map jnS

/-! Sanity examples (concrete runs of the embedded builder). -/

example : shlexSplit ("--ansible-detect --ansible-verbose") =
    some ["--ansible-detect", "--ansible-verbose"] := by decide

example : shlexSplit ("\x27") = none := by decide

example : shlexSplit ("a \x27b c\x27 d") = some ["a", "b c", "d"] := by decide

example : subN ("-anc") = "-ac" := by decide

example : subN ("-nn") = "-n" := by decide

example : replaceAll ("--ansible-verb--ansible-verboseose") ("--ansible-verbose") =
    "--ansible-verbose" := by decide

/-! ### The response classifier

The shipped module defines `check_password_prompt` and `check_success`
(lines 304-344) on top of baseline detectors inherited from Ansible's
`BecomeBase` (external collaborators, passed in as opaque pure
functions), together with the failure literals at lines 186-187. -/

/-- Python `bytes.splitlines()` on character lists (splits on `\n`, `\r`
and `\r\n`, no trailing empty line for a terminal newline). -/
def splitlinesAux : List Char → List Char → List (List Char)
  | [], cur => if cur.isEmpty then [] else [cur]
  | '\r' :: '\n' :: rest, cur => cur :: splitlinesAux rest []
  | '\r' :: rest, cur => cur :: splitlinesAux rest []
  | '\n' :: rest, cur => cur :: splitlinesAux rest []
  | c :: rest, cur => splitlinesAux rest (cur ++ [c])

/-- ASCII lower-casing of one character (`bytes.lower`). -/
def asciiLower (c : Char) : Char :=
  if 65 ≤ c.toNat ∧ c.toNat ≤ 90 then Char.ofNat (c.toNat + 32) else c

/-- ASCII lower-casing of a character list. -/
def lowerL (l : List Char) : List Char := l.map asciiLower

/-- Python `bytes.strip()` on character lists. -/
def bstrip (l : List Char) : List Char :=
  ((l.dropWhile pyStripWsCh).reverse.dropWhile pyStripWsCh).reverse

/-- The mutable per-invocation classifier state: the expected password
prompt recorded on the plugin object (`self.prompt`). -/
structure ClassifierState : Type where
  prompt : String
deriving DecidableEq

/-- The `sudosh_prompts` list (lines 311-316). -/
def sudosh_prompts : List String := ["[sudosh]", "sudosh:", "Password:", "password:"]

/-- The `success_indicators` list (lines 333-337). -/
def success_indicators : List String :=
  ["sudosh: Ansible session detected", "sudosh: Augment session detected",
   "sudosh: authentication successful"]

/-- The `fail` literal tuple of the shipped module (line 186). -/
def fail_messages : List String := ["Sorry, try again.", "sudosh: authentication failed"]

/-- The `missing` literal tuple of the shipped module (line 187). -/
def missing_messages : List String :=
  ["Sorry, a password is required to run sudosh", "sudosh: password required"]

/-- `check_password_prompt` (lines 304-324): baseline first, then a scan
of the stripped, lower-cased lines for the sudosh prompt markers.  The
method reads but never writes the plugin state, which the embedding
makes explicit by returning the state. -/
def check_password_prompt (baseline : ClassifierState → String → Bool)
    (st : ClassifierState) (b_output : String) : Bool × ClassifierState :=
  (if baseline st b_output then true
   else (splitlinesAux b_output.data []).any (fun line =>
     sudosh_prompts.any (fun p => containsSub (lowerL p.data) (lowerL (bstrip line)))),
   st)

/-- `check_success` (lines 326-344): baseline first, then a
case-sensitive scan of the raw lines for the success indicators. -/
def check_success (baseline : ClassifierState → String → Bool)
    (st : ClassifierState) (b_output : String) : Bool × ClassifierState :=
  (if baseline st b_output then true
   else (splitlinesAux b_output.data []).any (fun line =>
     success_indicators.any (fun ind => containsSub ind.data line)),
   st)

/-! ### The structured (JSON) protocol classifier

Modelled from the spec: the structured-protocol classifier belongs to
the JSON variant of the plugin, which the repository ships only through
its test suite (`tests/test_ansible_plugin.py`); the module it imports
(`ansible_plugin/sudosh.py`) is not under the sources.  Following
section 4.2 and the structured output contract of section 6, the output
must parse as a single JSON object with `success : bool`,
`exit_code : int` and optional string fields; `success` drives the
Success outcome and the `error` text is matched against the
incorrect- and missing-password literals; on parse failure classification
falls back to the legacy line-scanning rules. -/

/-- Modelled from the spec: JSON values of the structured output
contract (booleans, integers, strings, null — the contract's top-level
object is flat, so nested objects and arrays are not modelled). -/
inductive JsonValue : Type where
  | jbool (b : Bool)
  | jnum (n : Int)
  | jstr (s : String)
  | jnull
deriving DecidableEq

/-- Skip JSON whitespace. -/
def skipWs : List Char → List Char
  | [] => []
  | c :: rest => if pyShWs c then skipWs rest else c :: rest

/-- Parse the remainder of a JSON string (opening quote already
consumed), handling the common escapes. -/
def parseStringAux : List Char → List Char → Option (String × List Char)
  | [], _ => none
  | c :: rest, acc =>
    if c == '"' then some ((⟨acc.reverse⟩ : String), rest)
    else if c == '\\' then
      match rest with
      | [] => none
      | e :: rest2 =>
        if e == '"' then parseStringAux rest2 ('"' :: acc)
        else if e == '\\' then parseStringAux rest2 ('\\' :: acc)
        else if e == '/' then parseStringAux rest2 ('/' :: acc)
        else if e == 'n' then parseStringAux rest2 ('\n' :: acc)
        else if e == 't' then parseStringAux rest2 ('\t' :: acc)
        else if e == 'r' then parseStringAux rest2 ('\r' :: acc)
        else none
    else parseStringAux rest (c :: acc)

/-- Decimal digit test. -/
def isDigitCh (c : Char) : Bool := decide (48 ≤ c.toNat ∧ c.toNat ≤ 57)

/-- Split a leading run of digits. -/
def takeDigits : List Char → (List Char × List Char)
  | [] => ([], [])
  | c :: rest =>
    if isDigitCh c then
      let p := takeDigits rest
      (c :: p.fst, p.snd)
    else ([], c :: rest)

/-- Numeric value of a digit run. -/
def digitsVal : List Char → Nat → Nat
  | [], acc => acc
  | c :: rest, acc => digitsVal rest (acc * 10 + (c.toNat - 48))

/-- Parse a JSON integer (the contract's `exit_code` is an integer;
fractions and exponents are outside the modelled contract). -/
def parseNumber : List Char → Option (Int × List Char)
  | [] => none
  | c :: rest =>
    if c == '-' then
      match takeDigits rest with
      | ([], _) => none
      | (ds, r) => some (-(Int.ofNat (digitsVal ds 0)), r)
    else
      match takeDigits (c :: rest) with
      | ([], _) => none
      | (ds, r) => some (Int.ofNat (digitsVal ds 0), r)

/-- Parse one JSON value of the flat contract. -/
def parseValue (l0 : List Char) : Option (JsonValue × List Char) :=
  match skipWs l0 with
  | [] => none
  | c :: rest =>
    if c == '"' then (parseStringAux rest []).map (fun p => (JsonValue.jstr p.fst, p.snd))
    else if leads ("true".data) (c :: rest) then some (JsonValue.jbool true, (c :: rest).drop 4)
    else if leads ("false".data) (c :: rest) then some (JsonValue.jbool false, (c :: rest).drop 5)
    else if leads ("null".data) (c :: rest) then some (JsonValue.jnull, (c :: rest).drop 4)
    else (parseNumber (c :: rest)).map (fun p => (JsonValue.jnum p.fst, p.snd))

/-- Parse one `"key": value` member. -/
def parseMember (l0 : List Char) : Option ((String × JsonValue) × List Char) :=
  match skipWs l0 with
  | [] => none
  | c :: rest =>
    if c == '"' then
      match parseStringAux rest [] with
      | none => none
      | some (k, r1) =>
        match skipWs r1 with
        | ':' :: r2 =>
          match parseValue r2 with
          | none => none
          | some (v, r3) => some ((k, v), r3)
        | _ => none
    else none

/-- Parse a comma-separated member list (fuelled; each member consumes
at least one character, so the initial fuel suffices). -/
def parseMembers : Nat → List Char → Option (List (String × JsonValue) × List Char)
  | 0, _ => none
  | fuel + 1, l =>
    match parseMember l with
    | none => none
    | some (kv, r) =>
      match skipWs r with
      | ',' :: r2 => (parseMembers fuel r2).map (fun p => (kv :: p.fst, p.snd))
      | r2 => some ([kv], r2)

/-- Modelled from the spec: parse an entire raw output as a single
well-formed JSON object (nothing but whitespace around it), returning
its member list. -/
def parseJsonObject (l0 : List Char) : Option (List (String × JsonValue)) :=
  match skipWs l0 with
  | [] => none
  | c :: r =>
    if c == lbraceCh then
      match skipWs r with
      | [] => none
      | d :: r2 =>
        if d == rbraceCh then (if (skipWs r2).isEmpty then some [] else none)
        else
          match parseMembers (r.length + 1) (d :: r2) with
          | none => none
          | some (kvs, r3) =>
            match skipWs r3 with
            | [] => none
            | e :: r4 => if e == rbraceCh && (skipWs r4).isEmpty then some kvs else none
    else none

/-- Field lookup in a parsed object; later duplicates win, as in Python
`json.loads`. -/
def jsonLookup (obj : List (String × JsonValue)) (k : String) : Option JsonValue :=
  match obj.reverse.find? (fun kv => kv.fst == k) with
  | none => none
  | some kv => some kv.snd

/-- Classification outcomes of the response classifier (section 2). -/
inductive Outcome : Type where
  | success
  | incorrectPassword
  | missingPassword
  | unclassified
deriving DecidableEq

/-- Modelled from the spec: the incorrect-password literals the
structured protocol matches the `error` field against — the legacy
literals together with the `Incorrect password` text that section 8
requires to classify as IncorrectPassword (the companion tests assert
the same). -/
def structured_fail_literals : List String :=
  ["Sorry, try again.", "sudosh: authentication failed", "Incorrect password"]

/-- Modelled from the spec: the missing-password literals of the
structured protocol (legacy literals plus the tests' `Password
required`). -/
def structured_missing_literals : List String :=
  ["Sorry, a password is required to run sudosh", "sudosh: password required",
   "Password required"]

/-- Modelled from the spec: classify a parsed structured response —
`success: true` yields Success directly, otherwise the `error` text is
matched against the literal sets. -/
def classifyStructured (obj : List (String × JsonValue)) : Outcome :=
  if jsonLookup obj ("success") = some (JsonValue.jbool true) then Outcome.success
  else
    match jsonLookup obj ("error") with
    | some (JsonValue.jstr e) =>
      if structured_fail_literals.any (fun l => containsS l e) then Outcome.incorrectPassword
      else if structured_missing_literals.any (fun l => containsS l e) then
        Outcome.missingPassword
      else Outcome.unclassified
    | _ => Outcome.unclassified

/-- The legacy success markers: the sentinel string of section 6 plus
the shipped success indicators. -/
def legacy_success_markers : List String := "SUDOSH_ANSIBLE_SUCCESS" :: success_indicators

/-- The legacy missing-password markers: the sentinel string of
section 6 plus the shipped missing literals. -/
def legacy_missing_markers : List String :=
  "SUDOSH_ANSIBLE_PASSWORD_PROMPT" :: missing_messages

/-- Modelled from the spec: the legacy line-scanning classification
(plain-text sentinel and literal substring matching, section 4.2). -/
def classifyLegacy (out : String) : Outcome :=
  if legacy_success_markers.any (fun m => containsS m out) then Outcome.success
  else if fail_messages.any (fun m => containsS m out) then Outcome.incorrectPassword
  else if legacy_missing_markers.any (fun m => containsS m out) then Outcome.missingPassword
  else Outcome.unclassified

/-- Modelled from the spec: the single classifier surface of section 4.2
— attempt the structured parse first, fall back to the legacy rules on
parse failure. -/
def classifyOutput (out : String) : Outcome :=
  match parseJsonObject out.data with
  | some obj => classifyStructured obj
  | none => classifyLegacy out

/-! Sanity examples for the classifier surface. -/

example : parseJsonObject ("\x7b\"success\": true, \"exit_code\": 0\x7d").data =
    some [("success", JsonValue.jbool true), ("exit_code", JsonValue.jnum 0)] := by decide

example : classifyOutput ("\x7b\"success\": true, \"exit_code\": 0\x7d") = Outcome.success := by
  decide

example :
    classifyOutput
      ("\x7b\"success\": false, \"exit_code\": 1, \"error\": \"Incorrect password\"\x7d") =
    Outcome.incorrectPassword := by decide

example : classifyOutput ("Some output\nSUDOSH_ANSIBLE_SUCCESS\nMore output") =
    Outcome.success := by decide

example : classifyOutput ("Sorry, try again.\n") = Outcome.incorrectPassword := by decide

example : classifyOutput ("SUDOSH_ANSIBLE_PASSWORD_PROMPT") = Outcome.missingPassword := by
  decide

/-! ### Concrete fixtures used by witnesses and counterexamples -/

/-- A fully defaulted configuration (every option unset or at its
documented default). -/
def cfgDefault : BecomeConfig := ⟨"", "", "", "", true, false, true⟩

/-- An empty ambient environment snapshot: none of the consulted
variables are present. -/
def envEmpty : AmbientEnv := ⟨none, none, none, none, none⟩

/-- A concrete stand-in for the external `_build_success_command`
wrapping (the builder treats it as opaque). -/
def wrapPlain : String → String → String := fun c _ => c

/-! ### Shared helper lemmas -/

/-- A space-join of a list headed by a non-empty string is non-empty. -/
theorem jnS_cons_ne (s : String) (rest : List String) (hs : s.data ≠ []) :
    jnS (s :: rest) ≠ "" := by
  cases rest with
  | nil =>
    simp only [jnS, jn]
    intro h
    exact hs (congrArg String.data h)
  | cons t r =>
    simp only [jnS, jn]
    intro h
    have hd := congrArg String.data h
    cases hdata : s.data with
    | nil => exact hs hdata
    | cons a as => simp [hdata] at hd

/-- The environment annotation list always starts with the method
marker, so the environment prefix is never empty and the `env` keyword
is always emitted. -/
theorem envSeg_eq (cfg : BecomeConfig) (env : AmbientEnv) :
    envSeg cfg env = "env" :: ansibleEnvVars cfg env := by
  have h : jnS (ansibleEnvVars cfg env) ≠ "" := by
    have : ansibleEnvVars cfg env =
        "ANSIBLE_BECOME_METHOD=sudosh" ::
          (["ANSIBLE_BECOME_USER=" ++ pyOr cfg.become_user ("root"),
            "ANSIBLE_MODULE_NAME=" ++ getOr env.module_name ("unknown"),
            "ANSIBLE_TASK_UUID=" ++ getOr env.task_uuid ("unknown")]
           ++ (if optTruthy env.playbook_dir then ["ANSIBLE_PLAYBOOK_DIR=" ++ optVal env.playbook_dir] else [])
           ++ (if optTruthy env.inventory then ["ANSIBLE_INVENTORY=" ++ optVal env.inventory] else [])
           ++ (if optTruthy env.config then ["ANSIBLE_CONFIG=" ++ optVal env.config] else [])) := by
      simp [ansibleEnvVars]
    rw [this]
    exact jnS_cons_ne _ _ (by decide)
  simp only [envSeg]
  rw [if_neg h]

/-! ### Claim C6: the empty command is a no-op -/

/-- C6: for the empty command the builder returns the input unchanged —
`build("", shell, config, env) = ""` — taking no other action; this path
is a no-op, not an error, and no exception is raised (the result is
`some`, never `none`). -/
theorem claim_C6 (shell : String) (cfg : BecomeConfig) (env : AmbientEnv)
    (wrap : String → String → String) :
    buildBecomeCommand ("") shell cfg env wrap = some ("") := by
  simp [buildBecomeCommand]

/-! ### Claim C8: the classification predicates are stateless -/

/-- C8: classifying the same byte sequence twice with the same
classifier state yields the same outcome for each classification
predicate — password-prompt detection and success detection — and the
predicates mutate no hidden state across calls (the returned state is
the input state). -/
theorem claim_C8 (bp bs : ClassifierState → String → Bool) (st : ClassifierState)
    (out : String) :
    (check_password_prompt bp st out).2 = st ∧
    (check_success bs st out).2 = st ∧
    (check_password_prompt bp ((check_password_prompt bp st out).2) out).1 =
      (check_password_prompt bp st out).1 ∧
    (check_success bs ((check_success bs st out).2) out).1 =
      (check_success bs st out).1 :=
  ⟨rfl, rfl, rfl, rfl⟩

/-! ### Claim C1: the structured protocol drives classification -/

/-- C1: any raw output that parses as a single well-formed JSON object
is classified from the parsed fields — an object with `success: true`
is classified Success, and an object without it whose `error` field
contains an incorrect-password literal is classified IncorrectPassword;
the legacy line-scanning rules are consulted only when the parse fails
(the outcome equals the structured classification whenever the parse
succeeds). -/
theorem claim_C1 (out : String) (obj : List (String × JsonValue))
    (h : parseJsonObject out.data = some obj) :
    classifyOutput out = classifyStructured obj ∧
    (jsonLookup obj ("success") = some (JsonValue.jbool true) →
      classifyOutput out = Outcome.success) ∧
    (∀ e : String, jsonLookup obj ("success") ≠ some (JsonValue.jbool true) →
      jsonLookup obj ("error") = some (JsonValue.jstr e) →
      structured_fail_literals.any (fun l => containsS l e) = true →
      classifyOutput out = Outcome.incorrectPassword) := by
  have h1 : classifyOutput out = classifyStructured obj := by
    unfold classifyOutput
    rw [h]
  refine ⟨h1, ?_, ?_⟩
  · intro hs
    rw [h1]
    unfold classifyStructured
    rw [if_pos hs]
  · intro e hns he hf
    rw [h1]
    unfold classifyStructured
    rw [if_neg hns, he]
    simp only [hf, if_true]

/-- Witness for C1 at the spec's two concrete structured outputs. -/
theorem claim_C1_witness :
    classifyOutput ("\x7b\"success\": true, \"exit_code\": 0\x7d") = Outcome.success ∧
    classifyOutput
        ("\x7b\"success\": false, \"exit_code\": 1, \"error\": \"Incorrect password\"\x7d") =
      Outcome.incorrectPassword := by
  constructor
  · exact (claim_C1 _ [("success", JsonValue.jbool true), ("exit_code", JsonValue.jnum 0)]
      (by decide)).2.1 (by decide)
  · exact (claim_C1 _
      [("success", JsonValue.jbool false), ("exit_code", JsonValue.jnum 1),
       ("error", JsonValue.jstr ("Incorrect password"))]
      (by decide)).2.2 ("Incorrect password") (by decide) (by decide) (by decide)

/-! ### Claim C7: tokenizer failure propagates -/

/-- C7: when the effective flags string fails shell-word tokenization
(unbalanced quoting makes `shlex.split` raise), the builder propagates
the failure to the caller as an error (`none`) rather than returning a
mangled invocation string. -/
theorem claim_C7 (cmd shell : String) (cfg : BecomeConfig) (env : AmbientEnv)
    (wrap : String → String → String) (hc : cmd ≠ "")
    (hbad : shlexSplit (effectiveFlags cfg) = none) :
    buildBecomeCommand cmd shell cfg env wrap = none := by
  have hne : effectiveFlags cfg ≠ "" := by
    intro h0
    rw [h0] at hbad
    exact absurd hbad (by decide)
  have hft : flagTokens cfg = none := by
    unfold flagTokens
    rw [if_neg hne]
    exact hbad
  unfold buildBecomeCommand
  rw [if_neg hc]
  unfold buildParts finalFlags allFlags
  rw [hft]
  rfl

/-- A configuration whose flags string is a lone unbalanced single
quote. -/
def cfgBadQuote : BecomeConfig := ⟨"", "", "\x27", "", true, false, true⟩

/-- Witness for C7: the unbalanced-quote configuration makes the
builder fail. -/
theorem claim_C7_witness :
    buildBecomeCommand ("ls") ("/bin/sh") cfgBadQuote envEmpty wrapPlain = none :=
  claim_C7 ("ls") ("/bin/sh") cfgBadQuote envEmpty wrapPlain (by decide) (by decide)

/-! ### Claim C9: missing user defaults differ between annotation and selection -/

/-- C9: for every non-empty command with `become_user` absent or empty,
the built invocation carries the environment annotation
`ANSIBLE_BECOME_USER=root` (the annotation defaults to root) while the
`-u` user-selection segment is omitted entirely: the two consumers of
the missing user use different defaults. -/
theorem claim_C9 (cmd shell : String) (cfg : BecomeConfig) (env : AmbientEnv)
    (wrap : String → String → String) (hc : cmd ≠ "") (hu : cfg.become_user = "") :
    ("ANSIBLE_BECOME_USER=root") ∈ ansibleEnvVars cfg env ∧
    userFlag cfg = "" ∧ userSeg cfg = [] ∧
    (∀ fl, finalFlags cfg = some fl →
      buildParts cmd shell cfg env wrap =
        some (("env" :: ansibleEnvVars cfg env) ++ [pyOr cfg.become_exe ("sudosh")]
          ++ flagSeg fl ++ [wrap cmd shell])) := by
  have e2 : "ANSIBLE_BECOME_USER=" ++ pyOr cfg.become_user ("root") =
      "ANSIBLE_BECOME_USER=root" := by
    rw [hu]; decide
  have huf : userFlag cfg = "" := by
    unfold userFlag
    rw [hu]
    simp
  have hus : userSeg cfg = [] := by
    unfold userSeg
    rw [huf]
    simp
  refine ⟨?_, huf, hus, ?_⟩
  · unfold ansibleEnvVars
    rw [e2]
    exact List.mem_append_left _ (List.mem_append_left _
      (List.mem_append_left _ (by simp)))
  · intro fl hfl
    unfold buildParts
    rw [hfl, envSeg_eq, hus]
    simp

/-- Witness for C9 at the fully defaulted configuration. -/
theorem claim_C9_witness :
    ("ANSIBLE_BECOME_USER=root") ∈ ansibleEnvVars cfgDefault envEmpty :=
  (claim_C9 ("ls") ("/bin/sh") cfgDefault envEmpty wrapPlain (by decide) rfl).1

/-! ### Counting the non-interactive letter (for C4 and C10) -/

/-- Number of `n` characters in a character list. -/
def countNL : List Char → Nat
  | [] => 0
  | c :: rest => (if c = ('n') then 1 else 0) + countNL rest

/-- Number of `n` characters in a string. -/
def countN (s : String) : Nat := countNL s.data

theorem countNL_append (a b : List Char) : countNL (a ++ b) = countNL a + countNL b := by
  induction a with
  | nil => simp [countNL]
  | cons c rest ih =>
    show countNL (c :: (rest ++ b)) = countNL (c :: rest) + countNL b
    simp only [countNL, ih]
    omega

theorem countNL_reverse (l : List Char) : countNL l.reverse = countNL l := by
  induction l with
  | nil => rfl
  | cons c rest ih =>
    simp only [List.reverse_cons, countNL_append, countNL, ih]
    omega

theorem hasCh_or (c : Char) (rest : List Char) (a : Char) :
    hasCh (c :: rest) a = ((c == a) || hasCh rest a) := rfl

theorem hasCh_append (a b : List Char) (x : Char) :
    hasCh (a ++ b) x = (hasCh a x || hasCh b x) := by
  induction a with
  | nil => simp [hasCh]
  | cons c rest ih => simp [hasCh, ih, Bool.or_assoc]

theorem hasCh_reverse (l : List Char) (x : Char) : hasCh l.reverse x = hasCh l x := by
  induction l with
  | nil => rfl
  | cons c rest ih =>
    simp [List.reverse_cons, hasCh_append, hasCh, ih, Bool.or_comm]

theorem removeFirstN_count (l : List Char) (h : hasCh l ('n') = true) :
    countNL (removeFirstN l) + 1 = countNL l := by
  induction l with
  | nil => exact absurd h (by decide)
  | cons c rest ih =>
    by_cases hc : c = ('n')
    · simp only [removeFirstN, if_pos hc, countNL, if_pos hc]
      omega
    · have hc' : (c == ('n')) = false := by simp [hc]
      rw [hasCh_or, hc', Bool.false_or] at h
      have h3 := ih h
      simp only [removeFirstN, if_neg hc, countNL, if_neg hc]
      omega

theorem removeLastN_count (l : List Char) (h : hasCh l ('n') = true) :
    countNL (removeLastN l) + 1 = countNL l := by
  unfold removeLastN
  rw [countNL_reverse]
  rw [removeFirstN_count l.reverse (by rw [hasCh_reverse]; exact h)]
  exact countNL_reverse l

/-- Unfolding equation for `subN` on a non-empty token. -/
theorem subN_eq (t : String) (c : Char) (rest : List Char) (ht : t.data = c :: rest) :
    subN t =
      (if c = ('-') then
        (if hasCh (rest.takeWhile isWordChar) ('n') = true then
          (⟨('-') :: (removeLastN (rest.takeWhile isWordChar) ++ rest.dropWhile isWordChar)⟩ : String)
        else t)
      else t) := by
  simp only [subN, ht]

/-- The regex rewriting removes at most one character, hence at most one
`n`, from any token. -/
theorem subN_count (t : String) : countN t ≤ countN (subN t) + 1 := by
  cases ht : t.data with
  | nil =>
    have : subN t = t := by simp only [subN, ht]
    rw [this]
    omega
  | cons c rest =>
    rw [subN_eq t c rest ht]
    by_cases hc : c = ('-')
    · subst hc
      rw [if_pos rfl]
      by_cases hn : hasCh (rest.takeWhile isWordChar) ('n') = true
      · rw [if_pos hn]
        have hsplit : rest.takeWhile isWordChar ++ rest.dropWhile isWordChar = rest :=
          List.takeWhile_append_dropWhile isWordChar rest
        have h1 : countNL rest =
            countNL (rest.takeWhile isWordChar) + countNL (rest.dropWhile isWordChar) := by
          rw [← countNL_append, hsplit]
        have h2 := removeLastN_count (rest.takeWhile isWordChar) hn
        have hne : (if (('-') : Char) = ('n') then 1 else 0) = 0 := by decide
        unfold countN
        rw [ht]
        simp only [countNL, countNL_append, hne]
        omega
      · rw [if_neg hn]
        omega
    · rw [if_neg hc]
      omega

/-- No `n` survives inside the leading word run when the whole token has
no `n`. -/
theorem hasCh_takeWhile_false (p : Char → Bool) (l : List Char)
    (h : hasCh l ('n') = false) : hasCh (l.takeWhile p) ('n') = false := by
  induction l with
  | nil => simpa [List.takeWhile_nil] using h
  | cons c rest ih =>
    rw [hasCh_or] at h
    have h1 : (c == ('n')) = false := by
      cases hcc : (c == ('n')) with
      | false => rfl
      | true => rw [hcc] at h; simp at h
    have h2 : hasCh rest ('n') = false := by
      rw [h1, Bool.false_or] at h
      exact h
    rw [List.takeWhile]
    cases hp : p c with
    | false => simp [hasCh]
    | true =>
      simp only
      rw [hasCh_or, h1, Bool.false_or]
      exact ih h2

/-- Tokens containing no `n` pass through the regex unchanged. -/
theorem subN_no_n (t : String) (h : hasCh t.data ('n') = false) : subN t = t := by
  cases ht : t.data with
  | nil => simp only [subN, ht]
  | cons c rest =>
    rw [subN_eq t c rest ht]
    by_cases hc : c = ('-')
    · rw [if_pos hc]
      rw [ht, hasCh_or] at h
      have h2 : hasCh rest ('n') = false := by
        cases hcc : (c == ('n')) with
        | false => rw [hcc, Bool.false_or] at h; exact h
        | true => rw [hcc] at h; simp at h
      rw [if_neg (by rw [hasCh_takeWhile_false isWordChar rest h2]; simp)]
    · rw [if_neg hc]

/-! ### Claim C10: at most one `n` is excised per token -/

/-- C10: with a password configured, the non-interactive excision
removes at most one `n` per combined short-flag token — `-nn` is rebuilt
as `-n` with one `n` remaining — so a standalone `-n` token can survive
the stripping pass and lead the final flag list. -/
theorem claim_C10 (cfg : BecomeConfig) (hp : cfg.become_pass ≠ "")
    (hf : cfg.become_flags = "-nn") :
    (∀ t : String, countN t ≤ countN (subN t) + 1) ∧
    subN ("-nn") = "-n" ∧
    stripStep ("-nn") = some ("-n") ∧
    (∀ l, finalFlags cfg = some l → l.head? = some ("-n")) := by
  have heff : effectiveFlags cfg = "-nn" := by
    simp only [effectiveFlags, hf]
    cases hv : cfg.sudosh_detection_verbose <;> decide
  have hft : flagTokens cfg = some ["-nn"] := by
    unfold flagTokens
    rw [heff]
    decide
  have haf : allFlags cfg = some ("-nn" :: sudoshFlags cfg) := by
    unfold allFlags
    rw [hft]
    rfl
  have hstep : stripStep ("-nn") = some ("-n") := by decide
  have hff : finalFlags cfg = some (("-n") :: stripNonInteractive (sudoshFlags cfg)) := by
    unfold finalFlags
    rw [haf, Option.map_some', if_neg hp]
    simp only [stripNonInteractive, List.filterMap_cons, hstep]
  refine ⟨subN_count, by decide, hstep, ?_⟩
  intro l hl
  rw [hff] at hl
  rw [← Option.some.inj hl]
  rfl

/-- A password-bearing configuration whose flags are the doubled
non-interactive short token. -/
def cfgNN : BecomeConfig := ⟨"", "", "-nn", "pw", true, false, true⟩

/-- Witness for C10: with flags `-nn` and a password set, the final flag
list starts with a surviving standalone `-n`. -/
theorem claim_C10_witness :
    (["-n", "--ansible-verbose"] : List String).head? = some ("-n") :=
  (claim_C10 cfgNN (by decide) rfl).2.2.2 (["-n", "--ansible-verbose"]) (by decide)

/-! ### Claim C4: password-driven non-interactive stripping -/

/-- C4: for every non-empty command with a configured password the
builder runs the stripping pass over the flag list: standalone `-n` and
`--non-interactive` tokens are dropped from the built invocation, a
combined short-flag token has the embedded non-interactive letter
excised while the other letters are preserved (a token without `n` is
untouched, and `-anc` becomes `-ac`). -/
theorem claim_C4 (cfg : BecomeConfig) (cmd shell : String) (env : AmbientEnv)
    (wrap : String → String → String) (hc : cmd ≠ "") (hp : cfg.become_pass ≠ "")
    (ts : List String) (hts : allFlags cfg = some ts) :
    finalFlags cfg = some (stripNonInteractive ts) ∧
    buildParts cmd shell cfg env wrap =
      some (envSeg cfg env ++ [pyOr cfg.become_exe ("sudosh")]
        ++ flagSeg (stripNonInteractive ts) ++ userSeg cfg ++ [wrap cmd shell]) ∧
    stripStep ("-n") = none ∧
    stripStep ("--non-interactive") = none ∧
    (∀ t : String, startsWith2 t ("--") = false → hasCh t.data ('n') = false →
      stripStep t = some t) ∧
    stripStep ("-anc") = some ("-ac") := by
  have hff : finalFlags cfg = some (stripNonInteractive ts) := by
    unfold finalFlags
    rw [hts, Option.map_some', if_neg hp]
  refine ⟨hff, ?_, by decide, by decide, ?_, by decide⟩
  · unfold buildParts
    rw [hff, Option.map_some']
  · intro t h1 h2
    unfold stripStep
    have hne : ¬(t = "-n" ∨ t = "--non-interactive") := by
      rintro (rfl | rfl)
      · exact absurd h2 (by decide)
      · exact absurd h1 (by decide)
    rw [if_neg hne]
    rw [if_neg (by simp [h1])]
    rw [subN_no_n t h2]

/-- A password-bearing configuration exercising all stripping cases. -/
def cfgPass : BecomeConfig :=
  ⟨"", "", "-n -anc --non-interactive -x", "pw", true, false, true⟩

/-- Witness for C4 at a flag list containing every stripping case. -/
theorem claim_C4_witness :
    finalFlags cfgPass =
      some (stripNonInteractive
        ["-n", "-anc", "--non-interactive", "-x", "--ansible-verbose"]) :=
  (claim_C4 cfgPass ("ls") ("/bin/sh") envEmpty wrapPlain (by decide) (by decide)
    (["-n", "-anc", "--non-interactive", "-x", "--ansible-verbose"]) (by decide)).1

/-! ### Claim C2 (corrected): the env prefix is unconditional -/

set_option maxRecDepth 40000 in
/-- Counterexample to C2 as stated: with none of the five consulted
ambient variables present, the built invocation nevertheless begins with
an `env` prefix segment, because four annotations are emitted
unconditionally. -/
theorem claim_C2_counterexample :
    buildBecomeCommand ("ls") ("/bin/sh") cfgDefault envEmpty wrapPlain =
      some ("env ANSIBLE_BECOME_METHOD=sudosh ANSIBLE_BECOME_USER=root ANSIBLE_MODULE_NAME=unknown ANSIBLE_TASK_UUID=unknown sudosh --ansible-detect --ansible-verbose --ansible-verbose ls") ∧
    startsWith2
      ("env ANSIBLE_BECOME_METHOD=sudosh ANSIBLE_BECOME_USER=root ANSIBLE_MODULE_NAME=unknown ANSIBLE_TASK_UUID=unknown sudosh --ansible-detect --ansible-verbose --ansible-verbose ls")
      ("env ") = true := by
  constructor
  · decide
  · decide

/-- C2 amended: when none of the consulted ambient variables are
present, the environment annotations are exactly the four unconditional
ones (module name and task uuid defaulting to `unknown`), only the
three conditional annotations are omitted, and the invocation still
starts with the `env` keyword. -/
theorem claim_C2 (cmd shell : String) (cfg : BecomeConfig) (env : AmbientEnv)
    (wrap : String → String → String)
    (h1 : env.module_name = none) (h2 : env.task_uuid = none)
    (h3 : env.playbook_dir = none) (h4 : env.inventory = none) (h5 : env.config = none) :
    ansibleEnvVars cfg env =
      ["ANSIBLE_BECOME_METHOD=sudosh",
       "ANSIBLE_BECOME_USER=" ++ pyOr cfg.become_user ("root"),
       "ANSIBLE_MODULE_NAME=unknown", "ANSIBLE_TASK_UUID=unknown"] ∧
    envSeg cfg env = "env" :: ansibleEnvVars cfg env ∧
    (∀ l, buildParts cmd shell cfg env wrap = some l → l.head? = some ("env")) := by
  have ha : ansibleEnvVars cfg env =
      ["ANSIBLE_BECOME_METHOD=sudosh",
       "ANSIBLE_BECOME_USER=" ++ pyOr cfg.become_user ("root"),
       "ANSIBLE_MODULE_NAME=unknown", "ANSIBLE_TASK_UUID=unknown"] := by
    unfold ansibleEnvVars
    rw [h1, h2, h3, h4, h5]
    simp [optTruthy, getOr]
  refine ⟨ha, envSeg_eq cfg env, ?_⟩
  intro l hl
  unfold buildParts at hl
  rcases hfo : finalFlags cfg with _ | fl
  · rw [hfo] at hl
    exact absurd hl (by simp)
  · rw [hfo, Option.map_some'] at hl
    have hl2 := Option.some.inj hl
    rw [← hl2, envSeg_eq]
    rfl

/-- Witness for the amended C2 at the empty environment snapshot. -/
theorem claim_C2_witness :
    envSeg cfgDefault envEmpty = "env" :: ansibleEnvVars cfgDefault envEmpty :=
  (claim_C2 ("ls") ("/bin/sh") cfgDefault envEmpty wrapPlain rfl rfl rfl rfl rfl).2.1

/-! ### Claim C3 (corrected): the force flag can be duplicated -/

/-- A configuration whose flags string already contains the force flag
while forced detection is also enabled. -/
def cfgForceDup : BecomeConfig := ⟨"", "", "--ansible-force", "", true, true, true⟩

/-- Counterexample to C3 as stated: with `sudosh_detection_force=true`
and `become_flags` already containing the force flag, the built flag
list contains the force flag twice, not exactly once. -/
theorem claim_C3_counterexample :
    cfgForceDup.sudosh_detection_force = true ∧
    finalFlags cfgForceDup =
      some ["--ansible-force", "--ansible-force", "--ansible-verbose"] ∧
    (["--ansible-force", "--ansible-force", "--ansible-verbose"] : List String).count
      forceFlagTok = 2 := by
  refine ⟨rfl, by decide, by decide⟩

/-- C3 amended: with `sudosh_detection_force=true` the combined flag
list contains the force flag exactly once more than the tokenized
`become_flags` does — hence exactly once when `become_flags` does not
already contain it — and the force flag is always present in the final
flag list. -/
theorem claim_C3 (cfg : BecomeConfig) (hf : cfg.sudosh_detection_force = true) :
    (∀ ts, flagTokens cfg = some ts →
      allFlags cfg = some (ts ++ sudoshFlags cfg) ∧
      (ts ++ sudoshFlags cfg).count forceFlagTok = ts.count forceFlagTok + 1) ∧
    (∀ l, finalFlags cfg = some l → forceFlagTok ∈ l) := by
  have hsf : (sudoshFlags cfg).count forceFlagTok = 1 := by
    unfold sudoshFlags
    rw [hf]
    cases hv : cfg.sudosh_detection_verbose <;>
      cases hl : cfg.sudosh_session_log <;> decide
  constructor
  · intro ts hts
    constructor
    · unfold allFlags
      rw [hts]
      rfl
    · rw [List.count_append, hsf]
  · intro l hl
    rcases hft : flagTokens cfg with _ | ts
    · unfold finalFlags allFlags at hl
      rw [hft] at hl
      exact absurd hl (by simp)
    · have haf : allFlags cfg = some (ts ++ sudoshFlags cfg) := by
        unfold allFlags
        rw [hft]
        rfl
      unfold finalFlags at hl
      rw [haf, Option.map_some'] at hl
      have hl2 := Option.some.inj hl
      have hmem : forceFlagTok ∈ ts ++ sudoshFlags cfg := by
        apply List.mem_append_right
        unfold sudoshFlags
        rw [hf]
        simp
      rw [← hl2]
      by_cases hp : cfg.become_pass = ""
      · rw [if_pos hp]
        exact hmem
      · rw [if_neg hp]
        unfold stripNonInteractive
        exact List.mem_filterMap.mpr ⟨forceFlagTok, hmem, by decide⟩

/-- A defaulted configuration with forced detection enabled. -/
def cfgForce : BecomeConfig := ⟨"", "", "", "", true, true, true⟩

/-- Witness for the amended C3: with default flags the force flag is in
the final flag list. -/
theorem claim_C3_witness :
    forceFlagTok ∈
      (["--ansible-detect", "--ansible-verbose", "--ansible-force",
        "--ansible-verbose"] : List String) :=
  (claim_C3 cfgForce rfl).2 _ (by decide)

/-! ### Claim C5 (corrected): verbose stripping is textual, not token-wise -/

/-- A configuration whose flags string contains the verbose flag as a
substring that the textual removal reconstitutes. -/
def cfgVerbOff : BecomeConfig :=
  ⟨"", "", "--ansible-verb--ansible-verboseose", "", true, false, false⟩

/-- Counterexample to C5 as stated: `sudosh_detection_verbose=false` and
a flags string containing `--ansible-verbose`, yet the built invocation
contains a verbose flag token — removing the occurrences textually glues
the surrounding text back into `--ansible-verbose`. -/
theorem claim_C5_counterexample :
    cfgVerbOff.sudosh_detection_verbose = false ∧
    containsS verboseFlagTok cfgVerbOff.become_flags = true ∧
    finalFlags cfgVerbOff = some ["--ansible-verbose"] ∧
    buildParts ("ls") ("/bin/sh") cfgVerbOff envEmpty wrapPlain =
      some ["env", "ANSIBLE_BECOME_METHOD=sudosh", "ANSIBLE_BECOME_USER=root",
            "ANSIBLE_MODULE_NAME=unknown", "ANSIBLE_TASK_UUID=unknown",
            "sudosh", "--ansible-verbose", "ls"] := by
  refine ⟨rfl, by decide, by decide, by decide⟩

/-- C5 amended: when verbose detection is disabled the builder deletes
plain-text occurrences of `--ansible-verbose` from the raw flags string
before tokenizing (rather than stripping verbose tokens from the token
list); for the default flags string — or an unset one, which falls back
to it — the effective flags reduce to `--ansible-detect` and the built
invocation contains no verbose flag token.  (Adjacent text in a custom
flags string can reconstitute the flag, as the counterexample shows.) -/
theorem claim_C5 (cfg : BecomeConfig) (hv : cfg.sudosh_detection_verbose = false)
    (hd : cfg.become_flags = "" ∨ cfg.become_flags = defaultBecomeFlags) :
    effectiveFlags cfg = "--ansible-detect" ∧
    (∀ l, finalFlags cfg = some l → verboseFlagTok ∉ l) := by
  have heff : effectiveFlags cfg = "--ansible-detect" := by
    rcases hd with hd | hd <;> simp only [effectiveFlags, hd, hv] <;> decide
  have hft : flagTokens cfg = some ["--ansible-detect"] := by
    unfold flagTokens
    rw [heff]
    decide
  have haf : allFlags cfg = some (["--ansible-detect"] ++ sudoshFlags cfg) := by
    unfold allFlags
    rw [hft]
    rfl
  refine ⟨heff, ?_⟩
  intro l hl
  unfold finalFlags at hl
  rw [haf, Option.map_some'] at hl
  have hl2 := Option.some.inj hl
  rw [← hl2]
  rcases hforce : cfg.sudosh_detection_force <;>
    rcases hlog : cfg.sudosh_session_log <;>
      by_cases hp : cfg.become_pass = ""
  all_goals
    first
    | (rw [if_pos hp]; simp only [sudoshFlags, hv, hforce, hlog]; decide)
    | (rw [if_neg hp]; simp only [sudoshFlags, hv, hforce, hlog]; decide)

/-- A defaulted configuration with verbose detection disabled. -/
def cfgVerbOffD : BecomeConfig := ⟨"", "", "", "", true, false, false⟩

/-- Witness for the amended C5: an unset flags string with verbose
disabled reduces the effective flags to the detect flag alone. -/
theorem claim_C5_witness : effectiveFlags cfgVerbOffD = "--ansible-detect" :=
  (claim_C5 cfgVerbOffD rfl (Or.inl rfl)).1
